import Mathlib

set_option autoImplicit false

/-!
Shallow embedding of the whoop-python-client core (src/whoop_client/auth.py and
src/whoop_client/client.py) for checking the specification claims.

Modelling conventions:
  * Python datetimes are modelled as Int timestamps (seconds); the current time
    is passed explicitly to every operation that reads the clock.
  * Optional Python strings are Option String; Python truthiness of a string
    value ("" is falsy) is the function truthy below.
  * The HTTP transport is an explicit oracle (Transport): the token endpoint
    and resource endpoint responses are inputs, and every network call the code
    performs is recorded in an explicit trace (NetCall).
  * Python exceptions become an Except result: ValueError raised by the request
    gateway and httpx.HTTPStatusError raised by raise_for_status are the two
    constructors of ClientError.
  * Field-level response decoding (pydantic models) is an external boundary per
    the design; the transport oracle returns already-decoded values.  Cycle is
    embedded with its identity fields; the float-valued score sub-shape is part
    of the external decoding boundary and is not inspected by any claim.
-/

namespace Whoop

/-- Python truthiness of an optional string: None and the empty string are
falsy, every non-empty string is truthy. -/
def truthy : Option String → Bool
  | none => false
  | some s => !s.isEmpty

/-- OAuth2 token response (auth.py TokenResponse): access_token, token_type and
expires_in are required; refresh_token and scope are optional. -/
structure TokenResponse where
  access_token : String
  token_type : String
  expires_in : Int
  refresh_token : Option String
  scope : Option String
deriving DecidableEq, Repr

/-- State and configuration of auth.py OAuth2Handler.  The private attributes
_token_data and _token_expiry are the fields tokenData and tokenExpiry. -/
structure OAuth2Handler where
  client_id : String
  client_secret : String
  redirect_uri : String
  auth_base_url : String
  token_url : String
  scopes : List String
  tokenData : Option TokenResponse
  tokenExpiry : Option Int
deriving DecidableEq, Repr

/-- Default scope list used when the caller supplies none (auth.py lines 65-72). -/
def defaultScopes : List String :=
  ["read:recovery", "read:cycles", "read:workout", "read:sleep",
   "read:profile", "read:body_measurement"]

/-- Python expression "scopes or [default]": None and the empty list are falsy,
so both fall back to the default scope list. -/
def scopesOrDefault : Option (List String) → List String
  | some (s :: rest) => s :: rest
  | _ => defaultScopes

/-- OAuth2Handler.__init__ (auth.py lines 43-75). -/
def OAuth2Handler.init (client_id client_secret redirect_uri : String)
    (scopes : Option (List String)) : OAuth2Handler :=
  { client_id := client_id
    client_secret := client_secret
    redirect_uri := redirect_uri
    auth_base_url := "https://api.prod.whoop.com/oauth/oauth2/auth"
    token_url := "https://api.prod.whoop.com/oauth/oauth2/token"
    scopes := scopesOrDefault scopes
    tokenData := none
    tokenExpiry := none }

/-- OAuth2Handler._store_token (auth.py lines 155-165): store the credential and
set the expiry to now + expires_in - 300 (5-minute safety buffer). -/
def store_token (h : OAuth2Handler) (td : TokenResponse) (now : Int) : OAuth2Handler :=
  { h with tokenData := some td, tokenExpiry := some (now + (td.expires_in - 300)) }

/-- OAuth2Handler.access_token property (auth.py lines 167-174). -/
def OAuth2Handler.access_token (h : OAuth2Handler) : Option String :=
  h.tokenData.map TokenResponse.access_token

/-- OAuth2Handler.refresh_token property (auth.py lines 176-183): None when no
token data is stored, otherwise the stored optional refresh token. -/
def OAuth2Handler.refresh_token (h : OAuth2Handler) : Option String :=
  h.tokenData.bind TokenResponse.refresh_token

/-- OAuth2Handler.is_token_expired (auth.py lines 185-193): true when nothing is
stored, otherwise true iff now is at or past the stored expiry. -/
def is_token_expired (h : OAuth2Handler) (now : Int) : Bool :=
  match h.tokenExpiry with
  | none => true
  | some e => decide (e ≤ now)

/-- OAuth2Handler.set_tokens (auth.py lines 195-209): build a TokenResponse from
the given pair (token_type "bearer", no scope) and store it. -/
def set_tokens (h : OAuth2Handler) (atk rtk : String) (expires_in : Int) (now : Int) :
    OAuth2Handler :=
  store_token h
    { access_token := atk
      token_type := "bearer"
      expires_in := expires_in
      refresh_token := some rtk
      scope := none } now

/-- Outcome of a POST to the token endpoint, as seen after raise_for_status:
either a decoded TokenResponse or a non-2xx status with body. -/
inductive TokenEndpointResult where
  | success (td : TokenResponse)
  | failure (status : Nat) (body : String)
deriving DecidableEq, Repr

/-- Python exceptions escaping the embedded code: valueError is the ValueError
raised by WhoopClient._request (what the spec taxonomy calls AuthError), and
httpStatusError is httpx.HTTPStatusError from raise_for_status. -/
inductive ClientError where
  | valueError (msg : String)
  | httpStatusError (status : Nat) (body : String)
deriving DecidableEq, Repr

/-- OAuth2Handler.exchange_code (auth.py lines 98-125): on a non-2xx response
raise_for_status raises before anything is stored; on success the decoded
TokenResponse is stored and returned. -/
def exchange_code (h : OAuth2Handler) (res : TokenEndpointResult) (now : Int) :
    OAuth2Handler × Except ClientError TokenResponse :=
  match res with
  | .failure s b => (h, .error (.httpStatusError s b))
  | .success td => (store_token h td now, .ok td)

/-- OAuth2Handler.refresh_access_token (auth.py lines 127-153): same contract as
exchange_code; the refresh token argument is part of the posted form only. -/
def refresh_access_token (h : OAuth2Handler) (rt : String) (res : TokenEndpointResult)
    (now : Int) : OAuth2Handler × Except ClientError TokenResponse :=
  match rt, res with
  | _, .failure s b => (h, .error (.httpStatusError s b))
  | _, .success td => (store_token h td now, .ok td)

/-- UTF-8 encoding of a Unicode code point as a list of byte values, as CPython
encodes str values before percent-encoding. -/
def utf8Bytes (n : Nat) : List Nat :=
  if n < 128 then [n]
  else if n < 2048 then [192 + n / 64, 128 + n % 64]
  else if n < 65536 then [224 + n / 4096, 128 + (n / 64) % 64, 128 + n % 64]
  else [240 + n / 262144, 128 + (n / 4096) % 64, 128 + (n / 64) % 64, 128 + n % 64]

/-- UTF-8 byte sequence of a string. -/
def strBytes (s : String) : List Nat :=
  s.data.foldr (fun c acc => utf8Bytes c.toNat ++ acc) []

/-- Bytes urllib.parse.quote_plus leaves unescaped: ASCII letters, digits and
the characters underscore, dot, hyphen, tilde. -/
def isSafeByte (b : Nat) : Bool :=
  (65 ≤ b && b ≤ 90) || (97 ≤ b && b ≤ 122) || (48 ≤ b && b ≤ 57) ||
    b == 95 || b == 46 || b == 45 || b == 126

/-- Uppercase hexadecimal digit for a value below 16. -/
def hexDigit (n : Nat) : Char :=
  if n < 10 then Char.ofNat (48 + n) else Char.ofNat (55 + n)

/-- Percent-encoding of one byte under quote_plus: safe bytes pass through, a
space becomes a plus sign, everything else becomes a percent escape. -/
def quotePlusByte (b : Nat) : List Char :=
  if isSafeByte b then [Char.ofNat b]
  else if b == 32 then ['+']
  else ['%', hexDigit (b / 16), hexDigit (b % 16)]

/-- urllib.parse.quote_plus on a whole string. -/
def quotePlus (s : String) : String :=
  String.mk ((strBytes s).foldr (fun b acc => quotePlusByte b ++ acc) [])

/-- urllib.parse.urlencode over an insertion-ordered parameter list: each pair
becomes quoted key, equals sign, quoted value, joined with ampersands. -/
def urlencode (params : List (String × String)) : String :=
  String.intercalate "&" (params.map fun p => quotePlus p.1 ++ "=" ++ quotePlus p.2)

/-- Parameter dict built by OAuth2Handler.get_authorization_url (auth.py lines
86-94), in insertion order; the state pair is added only when state is truthy
(Python: if state). -/
def authUrlParams (h : OAuth2Handler) (state : Option String) : List (String × String) :=
  [("response_type", "code"),
   ("client_id", h.client_id),
   ("redirect_uri", h.redirect_uri),
   ("scope", String.intercalate " " h.scopes)]
  ++ (if truthy state then [("state", state.getD "")] else [])

/-- OAuth2Handler.get_authorization_url (auth.py lines 77-96). -/
def get_authorization_url (h : OAuth2Handler) (state : Option String) : String :=
  h.auth_base_url ++ "?" ++ urlencode (authUrlParams h state)

/-- ScoreState enumeration (models/common.py). -/
inductive ScoreState where
  | SCORED
  | PENDING_SCORE
  | UNSCORABLE
deriving DecidableEq, Repr

/-- Cycle record (models/cycle.py), identity fields; datetimes are carried as
their ISO-8601 strings.  The field endTime embeds the source field named end (a
Lean keyword); the optional float-valued score sub-shape belongs to the external
decoding boundary and is not inspected by any claim. -/
structure Cycle where
  id : Int
  user_id : Int
  created_at : String
  updated_at : String
  start : String
  endTime : Option String
  timezone_offset : String
  score_state : ScoreState
deriving DecidableEq, Repr

/-- PaginatedCycleResponse (models/cycle.py): the page envelope with records and
the optional next_token cursor. -/
structure PaginatedCycleResponse where
  records : List Cycle
  next_token : Option String
deriving DecidableEq, Repr

/-- One network call performed by the client, for the call trace: a refresh POST
to the token endpoint, or a resource request. -/
inductive NetCall where
  | refreshCall (refresh_token : String)
  | resourceCall (method : String) (url : String) (params : List (String × String))
deriving DecidableEq, Repr

/-- True exactly on token-endpoint refresh calls. -/
def isRefreshCall : NetCall → Bool
  | .refreshCall _ => true
  | .resourceCall _ _ _ => false

/-- True exactly on resource-endpoint calls. -/
def isResourceCall : NetCall → Bool
  | .refreshCall _ => false
  | .resourceCall _ _ _ => true

/-- Transport oracle: what the token endpoint answers to a refresh POST, and
what the resource endpoint answers (after raise_for_status, the decoded body of
type b, or a non-2xx status and body) given method, url and query parameters. -/
structure Transport (b : Type) where
  tokenEndpoint : TokenEndpointResult
  resource : String → String → List (String × String) → Except (Nat × String) b

/-- State of client.py WhoopClient: the fixed API base URL and the auth handler.
The float-valued request timeout is transport configuration outside the model. -/
structure WhoopClient where
  base_url : String
  auth : OAuth2Handler
deriving DecidableEq, Repr

/-- WhoopClient.__init__ (client.py lines 37-64): build the handler, then inject
the given pair via set_tokens only when both tokens are truthy
(Python: if access_token and refresh_token). -/
def WhoopClient.init (client_id client_secret redirect_uri : String)
    (access_token refresh_token : Option String) (scopes : Option (List String))
    (now : Int) : WhoopClient :=
  { base_url := "https://api.prod.whoop.com/developer"
    auth :=
      if truthy access_token && truthy refresh_token then
        set_tokens (OAuth2Handler.init client_id client_secret redirect_uri scopes)
          (access_token.getD "") (refresh_token.getD "") 3600 now
      else OAuth2Handler.init client_id client_secret redirect_uri scopes }

/-- Tail of WhoopClient._request after the refresh step (client.py lines 92-107):
raise ValueError when the access token is falsy (Python: if not
self.auth.access_token), otherwise perform the resource call and let
raise_for_status turn a non-2xx status into an error. -/
def requestAfterRefresh {b : Type} (c : WhoopClient) (tr : Transport b)
    (method endpoint : String) (params : List (String × String))
    (calls : List NetCall) : Except ClientError b × WhoopClient × List NetCall :=
  if truthy c.auth.access_token then
    match tr.resource method (c.base_url ++ endpoint) params with
    | .error sb =>
        (.error (.httpStatusError sb.1 sb.2), c,
         calls ++ [.resourceCall method (c.base_url ++ endpoint) params])
    | .ok body =>
        (.ok body, c, calls ++ [.resourceCall method (c.base_url ++ endpoint) params])
  else
    (.error (.valueError "No access token available. Please authenticate first."),
     c, calls)

/-- WhoopClient._request (client.py lines 66-107): when the token is expired and
a truthy refresh token is on record, refresh first (a failed refresh raises and
propagates); then run the access-token check and the resource call. -/
def request {b : Type} (c : WhoopClient) (tr : Transport b) (now : Int)
    (method endpoint : String) (params : List (String × String)) :
    Except ClientError b × WhoopClient × List NetCall :=
  if is_token_expired c.auth now && truthy c.auth.refresh_token then
    match refresh_access_token c.auth (c.auth.refresh_token.getD "") tr.tokenEndpoint now with
    | (auth2, .error e) =>
        (.error e, { c with auth := auth2 },
         [.refreshCall (c.auth.refresh_token.getD "")])
    | (auth2, .ok _) =>
        requestAfterRefresh { c with auth := auth2 } tr method endpoint params
          [.refreshCall (c.auth.refresh_token.getD "")]
  else
    requestAfterRefresh c tr method endpoint params []

/-- Auth-handler state right after the refresh step of WhoopClient._request
(client.py lines 89-90), whether or not a refresh was attempted. -/
def authAfterRefreshStep {b : Type} (c : WhoopClient) (tr : Transport b) (now : Int) :
    OAuth2Handler :=
  if is_token_expired c.auth now && truthy c.auth.refresh_token then
    (refresh_access_token c.auth (c.auth.refresh_token.getD "") tr.tokenEndpoint now).1
  else c.auth

/-- Query-parameter list built by every collection accessor (client.py lines
149-156 and the identical blocks of the recovery, sleep and workout accessors):
limit clamped with min(limit, 25), then start and end when present, then
nextToken when the cursor is truthy (Python: if next_token). -/
def collectionParams (limit : Int) (start endT next_token : Option String) :
    List (String × String) :=
  [("limit", toString (min limit 25))]
  ++ (match start with | some s => [("start", s)] | none => [])
  ++ (match endT with | some e => [("end", e)] | none => [])
  ++ (if truthy next_token then [("nextToken", next_token.getD "")] else [])

/-- WhoopClient.get_cycle_collection (client.py lines 126-159). -/
def get_cycle_collection (c : WhoopClient) (tr : Transport PaginatedCycleResponse)
    (now : Int) (limit : Int) (start endT next_token : Option String) :
    Except ClientError PaginatedCycleResponse × WhoopClient × List NetCall :=
  request c tr now "GET" "/v2/cycle" (collectionParams limit start endT next_token)

/-- Observable outcome of one pagination walk: the records yielded to the
consumer in order, the network calls performed, the exception escaping the
generator if any, and whether the loop reached its break (false when the walk
errored or the fuel ran out). -/
structure WalkOutcome where
  yielded : List Cycle
  calls : List NetCall
  err : Option ClientError
  completed : Bool
deriving DecidableEq, Repr

/-- Loop body of WhoopClient.iterate_cycles (client.py lines 380-393), with
explicit fuel: fetch a page at the current cursor, yield its records, break when
the next_token of the page is falsy (Python: if not response.next_token), else
continue from that cursor with the updated client state. -/
def iterateCyclesLoop (tr : Transport PaginatedCycleResponse) (now : Int)
    (start endT : Option String) (page_size : Int) :
    Nat → WhoopClient → Option String → WalkOutcome
  | 0, _, _ => { yielded := [], calls := [], err := none, completed := false }
  | fuel + 1, c, next_token =>
    match get_cycle_collection c tr now page_size start endT next_token with
    | (.error e, _, calls) =>
        { yielded := [], calls := calls, err := some e, completed := false }
    | (.ok page, c2, calls) =>
        if truthy page.next_token then
          { yielded := page.records
              ++ (iterateCyclesLoop tr now start endT page_size fuel c2 page.next_token).yielded
            calls := calls
              ++ (iterateCyclesLoop tr now start endT page_size fuel c2 page.next_token).calls
            err := (iterateCyclesLoop tr now start endT page_size fuel c2 page.next_token).err
            completed :=
              (iterateCyclesLoop tr now start endT page_size fuel c2 page.next_token).completed }
        else
          { yielded := page.records, calls := calls, err := none, completed := true }

/-- WhoopClient.iterate_cycles (client.py lines 364-393): start the cursor loop
at next_token = None. -/
def iterate_cycles (fuel : Nat) (c : WhoopClient) (tr : Transport PaginatedCycleResponse)
    (now : Int) (start endT : Option String) (page_size : Int) : WalkOutcome :=
  iterateCyclesLoop tr now start endT page_size fuel c none

/-- One Authenticator operation, with the token-endpoint response it observes
and the time at which it runs. -/
inductive AuthOp where
  | exchangeOp (res : TokenEndpointResult) (now : Int)
  | refreshOp (rt : String) (res : TokenEndpointResult) (now : Int)
  | setTokensOp (atk rtk : String) (expires_in : Int) (now : Int)
deriving Repr

/-- State transition of one Authenticator operation on the token store. -/
def applyOp (h : OAuth2Handler) : AuthOp → OAuth2Handler
  | .exchangeOp res now => (exchange_code h res now).1
  | .refreshOp rt res now => (refresh_access_token h rt res now).1
  | .setTokensOp atk rtk ein now => set_tokens h atk rtk ein now

/-- The credential an operation successfully stores, with its store time: a
successful exchange or refresh stores the decoded response, set_tokens stores
the credential it builds, and a failed network exchange stores nothing. -/
def opStore : AuthOp → Option (TokenResponse × Int)
  | .exchangeOp (.success td) now => some (td, now)
  | .exchangeOp (.failure _ _) _ => none
  | .refreshOp _ (.success td) now => some (td, now)
  | .refreshOp _ (.failure _ _) _ => none
  | .setTokensOp atk rtk ein now =>
      some ({ access_token := atk, token_type := "bearer", expires_in := ein,
              refresh_token := some rtk, scope := none }, now)

/-- Run a sequence of Authenticator operations from a starting handler state. -/
def runOps (h : OAuth2Handler) (ops : List AuthOp) : OAuth2Handler :=
  ops.foldl applyOp h

/-- The last credential stored by a sequence of operations (with its store
time), starting from a known previous store. -/
def lastStore (ls : Option (TokenResponse × Int)) (ops : List AuthOp) :
    Option (TokenResponse × Int) :=
  ops.foldl (fun acc op => match opStore op with | some x => some x | none => acc) ls

/-- Consistency of the token store with the last successful store: either
nothing was ever stored and both fields are unset, or both fields are set, the
credential is exactly the last stored one, and the expiry was computed from
that same credential at its store time with the 300-second buffer. -/
def storeConsistent (h : OAuth2Handler) (ls : Option (TokenResponse × Int)) : Prop :=
  match ls with
  | none => h.tokenData = none ∧ h.tokenExpiry = none
  | some tdt => h.tokenData = some tdt.1 ∧
      h.tokenExpiry = some (tdt.2 + (tdt.1.expires_in - 300))

/-- Concrete cycle record used by the concrete pagination scenarios. -/
def cycA : Cycle :=
  { id := 1, user_id := 9, created_at := "2023-01-01T10:00:00Z",
    updated_at := "2023-01-01T11:00:00Z", start := "2023-01-01T00:00:00Z",
    endTime := none, timezone_offset := "-05:00", score_state := .SCORED }

/-- Client freshly constructed with an injected, unexpired token pair. -/
def cFresh : WhoopClient :=
  WhoopClient.init "cid" "cs" "uri" (some "atk") (some "rtk") none 0

/-- Client whose stored token is already expired (stored at time 0 with
expires_in 100, so the buffered expiry instant is -200). -/
def cExp : WhoopClient :=
  { base_url := "https://api.prod.whoop.com/developer"
    auth := set_tokens (OAuth2Handler.init "cid" "cs" "uri" none) "atk" "rtk" 100 0 }

/-- Client constructed without any injected tokens (never authenticated). -/
def cNever : WhoopClient :=
  WhoopClient.init "cid" "cs" "uri" none none none 0

/-- Fresh credential returned by a successful token-endpoint refresh. -/
def tdFresh : TokenResponse :=
  { access_token := "atk2", token_type := "bearer", expires_in := 3600,
    refresh_token := some "rtk2", scope := none }

/-- Server with exactly two pages: the call carrying nextToken=t2 gets page2
with records [C] and no cursor; any other call gets page1 with records [A, B]
and cursor t2.  The token endpoint is never consulted in these scenarios. -/
def twoPageServer (A B C : Cycle) : Transport PaginatedCycleResponse :=
  { tokenEndpoint := .failure 500 "unused"
    resource := fun _ _ params =>
      if params.contains ("nextToken", "t2") then .ok { records := [C], next_token := none }
      else .ok { records := [A, B], next_token := some "t2" } }

/-- Server that always answers with an empty page whose next_token is the empty
string: a present, non-null cursor that Python truthiness treats as absent. -/
def emptyStringCursorServer : Transport PaginatedCycleResponse :=
  { tokenEndpoint := .failure 500 "unused"
    resource := fun _ _ _ => .ok { records := [], next_token := some "" } }

/-- Server that always answers a single final page [cycA] with no cursor; its
token endpoint answers a successful refresh with tdFresh. -/
def onePageServer : Transport PaginatedCycleResponse :=
  { tokenEndpoint := .success tdFresh
    resource := fun _ _ _ => .ok { records := [cycA], next_token := none } }

/-- Server that always answers an empty page with the non-empty cursor
"more": every page demands a further fetch. -/
def moreCursorServer : Transport PaginatedCycleResponse :=
  { tokenEndpoint := .failure 500 "unused"
    resource := fun _ _ _ => .ok { records := [], next_token := some "more" } }

/-- Credential stored before the C6 scenario, holding refresh token
old-refresh. -/
def tdOld : TokenResponse :=
  { access_token := "old-access", token_type := "bearer", expires_in := 3600,
    refresh_token := some "old-refresh", scope := none }

/-- Refresh response that omits the refresh_token field (no rotation). -/
def tdNoRotation : TokenResponse :=
  { access_token := "new-access", token_type := "bearer", expires_in := 3600,
    refresh_token := none, scope := none }

/-- Handler holding tdOld, the state before the C6 refresh call. -/
def hWithOld : OAuth2Handler :=
  store_token (OAuth2Handler.init "cid" "cs" "uri" none) tdOld 0

/-- Final page carrying cycA and no cursor, as served by onePageServer. -/
def pageOne : PaginatedCycleResponse := { records := [cycA], next_token := none }

/-- Empty page with the non-empty cursor "more", as served by moreCursorServer. -/
def pageMore : PaginatedCycleResponse := { records := [], next_token := some "more" }

/-- Trace of one unauthenticated-refresh-free collection fetch at page size 25. -/
def callsOneFetch : List NetCall :=
  [.resourceCall "GET" "https://api.prod.whoop.com/developer/v2/cycle" [("limit", "25")]]

/-- Handler fixture for the authorization-URL scenarios. -/
def h7a : OAuth2Handler := OAuth2Handler.init "cid" "secret-a" "uri" none

/-- Handler agreeing with h7a on client id, redirect URI, scopes and endpoint,
but with a different client secret and a stored token. -/
def h7b : OAuth2Handler := store_token (OAuth2Handler.init "cid" "secret-b" "uri" none) tdOld 0

/-- Helper: a truthy refresh token implies a credential is stored, hence the
access-token accessor does not return none. -/
theorem access_token_ne_none_of_truthy_refresh (h : OAuth2Handler)
    (ht : truthy h.refresh_token = true) : h.access_token ≠ none := by
  cases htd : h.tokenData with
  | none => simp [OAuth2Handler.refresh_token, htd, truthy] at ht
  | some td => simp [OAuth2Handler.access_token, htd]

/-- C4: immediately after set_tokens, a successful exchange_code, or a
successful refresh stores a credential, is_token_expired is false exactly when
expires_in exceeds 300, because the stored expiry instant is the issue time
plus expires_in minus 300 seconds. -/
theorem C4_expiry_buffer (h : OAuth2Handler) (atk rtk : String) (td : TokenResponse)
    (ein now : Int) :
    (store_token h td now).tokenExpiry = some (now + (td.expires_in - 300)) ∧
    (300 < ein → is_token_expired (set_tokens h atk rtk ein now) now = false) ∧
    (ein ≤ 300 → is_token_expired (set_tokens h atk rtk ein now) now = true) ∧
    (300 < td.expires_in →
      is_token_expired (exchange_code h (.success td) now).1 now = false) ∧
    (td.expires_in ≤ 300 →
      is_token_expired (exchange_code h (.success td) now).1 now = true) ∧
    (300 < td.expires_in →
      is_token_expired (refresh_access_token h rtk (.success td) now).1 now = false) ∧
    (td.expires_in ≤ 300 →
      is_token_expired (refresh_access_token h rtk (.success td) now).1 now = true) := by
  refine ⟨rfl, ?_, ?_, ?_, ?_, ?_, ?_⟩ <;> intro hb <;>
    simp only [set_tokens, exchange_code, refresh_access_token, store_token,
      is_token_expired, decide_eq_true_eq, decide_eq_false_iff_not] <;> omega

/-- Witness for C4 at expires_in 3600 and 0. -/
theorem C4_expiry_buffer_witness :
    (300 : Int) < 3600 ∧ (0 : Int) ≤ 300 ∧
    is_token_expired (set_tokens (OAuth2Handler.init "c" "s" "u" none) "a" "r" 3600 0) 0
      = false ∧
    is_token_expired (set_tokens (OAuth2Handler.init "c" "s" "u" none) "a" "r" 0 0) 0
      = true :=
  ⟨by norm_num, by norm_num,
   (C4_expiry_buffer (OAuth2Handler.init "c" "s" "u" none) "a" "r" tdOld 3600 0).2.1
     (by norm_num),
   (C4_expiry_buffer (OAuth2Handler.init "c" "s" "u" none) "a" "r" tdOld 0 0).2.2.1
     (by norm_num)⟩

/-- C5: every collection accessor places min(limit, 25) in the query string as
the first parameter: values above 25 are clamped to 25, values at or below 25
pass through unchanged, and no value is ever rejected (the construction is
total and the accessor simply issues the request with the built parameters). -/
theorem C5_limit_clamp (limit : Int) (start endT next_token : Option String)
    (c : WhoopClient) (tr : Transport PaginatedCycleResponse) (now : Int) :
    (collectionParams limit start endT next_token).head? =
      some ("limit", toString (min limit 25)) ∧
    (25 < limit → min limit 25 = 25) ∧
    (limit ≤ 25 → min limit 25 = limit) ∧
    get_cycle_collection c tr now limit start endT next_token =
      request c tr now "GET" "/v2/cycle" (collectionParams limit start endT next_token) := by
  refine ⟨rfl, ?_, ?_, rfl⟩ <;> intro hl <;> omega

/-- Witness for C5 at limits 100 and 7. -/
theorem C5_limit_clamp_witness :
    (25 : Int) < 100 ∧ (7 : Int) ≤ 25 ∧
    (collectionParams 100 none none none).head? = some ("limit", toString (min (100 : Int) 25)) ∧
    min (100 : Int) 25 = 25 ∧ min (7 : Int) 25 = 7 :=
  ⟨by norm_num, by norm_num,
   (C5_limit_clamp 100 none none none cFresh onePageServer 0).1,
   (C5_limit_clamp 100 none none none cFresh onePageServer 0).2.1 (by norm_num),
   (C5_limit_clamp 7 none none none cFresh onePageServer 0).2.2.1 (by norm_num)⟩

/-- C6 counterexample: with refresh token old-refresh on record, a successful
refresh whose response omits refresh_token leaves the accessor returning none
afterward, not the previously stored token — the old refresh token is lost,
contradicting the claimed retention. -/
theorem C6_refresh_token_not_retained_cex :
    hWithOld.refresh_token = some "old-refresh" ∧
    tdNoRotation.refresh_token = none ∧
    (refresh_access_token hWithOld "old-refresh" (.success tdNoRotation) 50).2
      = .ok tdNoRotation ∧
    (refresh_access_token hWithOld "old-refresh" (.success tdNoRotation) 50).1.refresh_token
      = none ∧
    (none : Option String) ≠ some "old-refresh" :=
  ⟨rfl, rfl, rfl, rfl, by simp⟩

/-- C6 amended: a successful refresh replaces the stored credential wholesale
with the decoded response; the refresh_token accessor afterwards returns
exactly the refresh_token field of the response, so when the response omits it
the accessor returns none and the prior refresh token is not retained. -/
theorem C6_wholesale_replacement (h : OAuth2Handler) (rt : String)
    (td : TokenResponse) (now : Int) :
    (refresh_access_token h rt (.success td) now).1 = store_token h td now ∧
    (store_token h td now).tokenData = some td ∧
    (store_token h td now).refresh_token = td.refresh_token :=
  ⟨rfl, rfl, rfl⟩

/-- C10: when the token endpoint answers non-2xx, exchange_code and
refresh_access_token raise the HTTP failure and leave the token store exactly
as it was — the handler state component of the result is the input handler. -/
theorem C10_failed_token_call_state_unchanged (h : OAuth2Handler) (rt : String)
    (s : Nat) (b : String) (now : Int) :
    exchange_code h (.failure s b) now = (h, .error (.httpStatusError s b)) ∧
    refresh_access_token h rt (.failure s b) now = (h, .error (.httpStatusError s b)) :=
  ⟨rfl, rfl⟩

/-- C7 counterexample: supplying the empty string as state produces a URL with
no state parameter — identical to supplying no state at all — because the
source guards the parameter with Python truthiness (if state).  This refutes
the claimed "state parameter iff a state was supplied". -/
theorem C7_empty_state_cex :
    (some "" : Option String) ≠ none ∧
    authUrlParams h7a (some "") = authUrlParams h7a none ∧
    get_authorization_url h7a (some "") = get_authorization_url h7a none ∧
    (authUrlParams h7a (some "")).map Prod.fst =
      ["response_type", "client_id", "redirect_uri", "scope"] :=
  ⟨by simp, rfl, rfl, rfl⟩

/-- C7 amended: get_authorization_url is a pure function of the configured
client id, redirect URI, scopes, fixed endpoint and the state argument (in
particular independent of the client secret and of the token store); its query
string is the urlencoding of the parameter list, which always carries
response_type=code, the client id, the redirect URI and the space-joined scope
list, and carries a state parameter iff a non-empty state was supplied. -/
theorem C7_auth_url (h h2 : OAuth2Handler) (state : Option String)
    (hc : h.client_id = h2.client_id) (hr : h.redirect_uri = h2.redirect_uri)
    (hs : h.scopes = h2.scopes) (hb : h.auth_base_url = h2.auth_base_url) :
    get_authorization_url h state =
      h.auth_base_url ++ "?" ++ urlencode (authUrlParams h state) ∧
    ("response_type", "code") ∈ authUrlParams h state ∧
    ("client_id", h.client_id) ∈ authUrlParams h state ∧
    ("redirect_uri", h.redirect_uri) ∈ authUrlParams h state ∧
    ("scope", String.intercalate " " h.scopes) ∈ authUrlParams h state ∧
    ((∃ s, ("state", s) ∈ authUrlParams h state) ↔ truthy state = true) ∧
    get_authorization_url h state = get_authorization_url h2 state := by
  refine ⟨rfl, ?_, ?_, ?_, ?_, ?_, ?_⟩
  · simp [authUrlParams]
  · simp [authUrlParams]
  · simp [authUrlParams]
  · simp [authUrlParams]
  · constructor
    · rintro ⟨s, hmem⟩
      by_contra hf
      simp only [Bool.not_eq_true] at hf
      simp [authUrlParams, hf] at hmem
    · intro ht
      exact ⟨state.getD "", by simp [authUrlParams, ht]⟩
  · simp [get_authorization_url, authUrlParams, hb, hc, hr, hs]

/-- Witness for C7 on two handlers sharing configuration but differing in
client secret and token store, with state xyz supplied. -/
theorem C7_auth_url_witness :
    (h7a.client_id = h7b.client_id ∧ h7a.redirect_uri = h7b.redirect_uri ∧
      h7a.scopes = h7b.scopes ∧ h7a.auth_base_url = h7b.auth_base_url) ∧
    ("client_id", h7a.client_id) ∈ authUrlParams h7a (some "xyz") ∧
    ((∃ s, ("state", s) ∈ authUrlParams h7a (some "xyz")) ↔
      truthy (some "xyz") = true) ∧
    get_authorization_url h7a (some "xyz") = get_authorization_url h7b (some "xyz") :=
  ⟨⟨rfl, rfl, rfl, rfl⟩,
   (C7_auth_url h7a h7b (some "xyz") rfl rfl rfl rfl).2.2.1,
   (C7_auth_url h7a h7b (some "xyz") rfl rfl rfl rfl).2.2.2.2.2.1,
   (C7_auth_url h7a h7b (some "xyz") rfl rfl rfl rfl).2.2.2.2.2.2⟩

/-- Helper for C8: consistency of the store with the last successful store is
preserved by every Authenticator operation sequence. -/
theorem storeConsistent_runOps (ops : List AuthOp) :
    ∀ (h : OAuth2Handler) (ls : Option (TokenResponse × Int)),
      storeConsistent h ls → storeConsistent (runOps h ops) (lastStore ls ops) := by
  induction ops with
  | nil => intro h ls hc; exact hc
  | cons op rest ih =>
    intro h ls hc
    have hrun : runOps h (op :: rest) = runOps (applyOp h op) rest := rfl
    have hls : lastStore ls (op :: rest) =
        lastStore (match opStore op with | some x => some x | none => ls) rest := rfl
    rw [hrun, hls]
    apply ih
    cases op with
    | exchangeOp res now =>
      cases res with
      | success td => simp [applyOp, opStore, exchange_code, store_token, storeConsistent]
      | failure s b => simpa [applyOp, opStore, exchange_code] using hc
    | refreshOp rt res now =>
      cases res with
      | success td => simp [applyOp, opStore, refresh_access_token, store_token, storeConsistent]
      | failure s b => simpa [applyOp, opStore, refresh_access_token] using hc
    | setTokensOp atk rtk ein now =>
      simp [applyOp, opStore, set_tokens, store_token, storeConsistent]

/-- C8: running any sequence of Authenticator operations from a freshly
initialised handler leaves the credential and the expiry instant a consistent
pair: both unset when no operation ever stored, otherwise both set with the
expiry computed from exactly the stored credential at its store time. -/
theorem C8_store_consistency (cid cs ru : String) (sc : Option (List String))
    (ops : List AuthOp) :
    storeConsistent (runOps (OAuth2Handler.init cid cs ru sc) ops) (lastStore none ops) :=
  storeConsistent_runOps ops (OAuth2Handler.init cid cs ru sc) none ⟨rfl, rfl⟩

/-- C9: constructing the client with exactly one of the two injected tokens
stores nothing: the auth handler equals the freshly initialised one, its access
token is none, is_token_expired is true at every time, and the first resource
call fails with the no-access-token ValueError before any network call. -/
theorem C9_single_token_ignored (b : Type) (cid cs ru : String)
    (sc : Option (List String)) (now now2 : Int) (atk rtk : String)
    (tr : Transport b) (m ep : String) (p : List (String × String)) :
    (WhoopClient.init cid cs ru (some atk) none sc now).auth =
      OAuth2Handler.init cid cs ru sc ∧
    (WhoopClient.init cid cs ru none (some rtk) sc now).auth =
      OAuth2Handler.init cid cs ru sc ∧
    (WhoopClient.init cid cs ru (some atk) none sc now).auth.access_token = none ∧
    is_token_expired (WhoopClient.init cid cs ru (some atk) none sc now).auth now2 = true ∧
    request (WhoopClient.init cid cs ru (some atk) none sc now) tr now2 m ep p =
      (.error (.valueError "No access token available. Please authenticate first."),
       WhoopClient.init cid cs ru (some atk) none sc now, []) ∧
    request (WhoopClient.init cid cs ru none (some rtk) sc now) tr now2 m ep p =
      (.error (.valueError "No access token available. Please authenticate first."),
       WhoopClient.init cid cs ru none (some rtk) sc now, []) := by
  refine ⟨by simp [WhoopClient.init, truthy], by simp [WhoopClient.init, truthy],
    by simp [WhoopClient.init, truthy, OAuth2Handler.init, OAuth2Handler.access_token],
    by simp [WhoopClient.init, truthy, OAuth2Handler.init, is_token_expired], ?_, ?_⟩ <;>
  · simp [request, requestAfterRefresh, WhoopClient.init, OAuth2Handler.init,
      OAuth2Handler.access_token, OAuth2Handler.refresh_token, truthy, is_token_expired]

/-- Helper: the gateway tail never produces a successful result with a falsy
access token; on success the returned client carries a truthy access token. -/
theorem requestAfterRefresh_ok_access (b : Type) (c : WhoopClient) (tr : Transport b)
    (m ep : String) (p : List (String × String)) (calls0 : List NetCall) (x : b)
    (c2 : WhoopClient) (calls : List NetCall)
    (hok : requestAfterRefresh c tr m ep p calls0 = (.ok x, c2, calls)) :
    truthy c2.auth.access_token = true := by
  unfold requestAfterRefresh at hok
  cases hacc : truthy c.auth.access_token with
  | false => simp [hacc] at hok
  | true =>
    simp only [hacc, if_true] at hok
    cases hrr : tr.resource m (c.base_url ++ ep) p with
    | error sb => simp [hrr] at hok
    | ok body =>
      simp only [hrr, Prod.mk.injEq] at hok
      rw [← hok.2.1]
      exact hacc

/-- Helper: a successful gateway request returns a client whose access token is
truthy. -/
theorem request_ok_access (b : Type) (c : WhoopClient) (tr : Transport b) (now : Int)
    (m ep : String) (p : List (String × String)) (x : b) (c2 : WhoopClient)
    (calls : List NetCall) (hok : request c tr now m ep p = (.ok x, c2, calls)) :
    truthy c2.auth.access_token = true := by
  unfold request at hok
  cases hcond : (is_token_expired c.auth now && truthy c.auth.refresh_token) with
  | false =>
    rw [hcond] at hok
    simp only [Bool.false_eq_true, if_false] at hok
    exact requestAfterRefresh_ok_access b c tr m ep p [] x c2 calls hok
  | true =>
    rw [hcond] at hok
    simp only [if_true] at hok
    cases hres : tr.tokenEndpoint with
    | failure s bd => simp [hres, refresh_access_token] at hok
    | success td =>
      simp only [hres, refresh_access_token] at hok
      exact requestAfterRefresh_ok_access b _ tr m ep p _ x c2 calls hok

/-- Helper: when the access token is truthy, the gateway tail appends exactly
one resource call to the trace. -/
theorem requestAfterRefresh_trace_of_access (b : Type) (c : WhoopClient)
    (tr : Transport b) (m ep : String) (p : List (String × String))
    (calls0 : List NetCall) (hacc : truthy c.auth.access_token = true) :
    (requestAfterRefresh c tr m ep p calls0).2.2 =
      calls0 ++ [.resourceCall m (c.base_url ++ ep) p] := by
  unfold requestAfterRefresh
  rw [hacc]
  cases tr.resource m (c.base_url ++ ep) p <;> simp

/-- Helper: a gateway request issued with a truthy access token always performs
at least one network call (a refresh, a resource call, or both). -/
theorem request_trace_ne_nil (b : Type) (c : WhoopClient) (tr : Transport b)
    (now : Int) (m ep : String) (p : List (String × String))
    (hacc : truthy c.auth.access_token = true) :
    (request c tr now m ep p).2.2 ≠ [] := by
  unfold request
  cases hcond : (is_token_expired c.auth now && truthy c.auth.refresh_token) with
  | false =>
    simp only [Bool.false_eq_true, if_false]
    rw [requestAfterRefresh_trace_of_access b c tr m ep p [] hacc]
    simp
  | true =>
    simp only [if_true]
    cases hres : tr.tokenEndpoint with
    | failure s bd => simp [refresh_access_token]
    | success td =>
      simp only [refresh_access_token]
      cases haccB : truthy (store_token c.auth td now).access_token with
      | true =>
        rw [requestAfterRefresh_trace_of_access b _ tr m ep p _ haccB]
        simp
      | false =>
        unfold requestAfterRefresh
        simp [haccB]

/-- Helper: the pagination loop given at least one unit of fuel and a truthy
access token records at least one network call. -/
theorem loop_calls_ne_nil (tr : Transport PaginatedCycleResponse) (now : Int)
    (start endT : Option String) (page_size : Int) (fuel : Nat) (c : WhoopClient)
    (t : Option String) (hacc : truthy c.auth.access_token = true) :
    (iterateCyclesLoop tr now start endT page_size (fuel + 1) c t).calls ≠ [] := by
  rcases hfetch : get_cycle_collection c tr now page_size start endT t with ⟨res, c2, calls⟩
  have hcalls : calls ≠ [] := by
    have hr := request_trace_ne_nil PaginatedCycleResponse c tr now "GET" "/v2/cycle"
      (collectionParams page_size start endT t) hacc
    rw [show request c tr now "GET" "/v2/cycle" (collectionParams page_size start endT t)
        = get_cycle_collection c tr now page_size start endT t from rfl, hfetch] at hr
    exact hr
  simp only [iterateCyclesLoop]
  rw [hfetch]
  cases res with
  | error e => simpa using hcalls
  | ok page =>
    cases htr : truthy page.next_token <;> simp [htr, hcalls]

/-- C3 counterexample: against a server answering an empty page whose
next_token is the empty string — a present, non-null cursor string — the walk
stops after a single upstream call, because the source breaks on Python
falsiness (if not response.next_token), not on cursor absence. -/
theorem C3_empty_string_cursor_cex :
    (some "" : Option String) ≠ none ∧
    iterate_cycles 5 cFresh emptyStringCursorServer 0 none none 25 =
      { yielded := [], calls := callsOneFetch, err := none, completed := true } :=
  ⟨by simp, rfl⟩

/-- C3 amended: the loop never stops because of a record count; after a
successful fetch it breaks exactly when the fetched page's next_token is falsy
(absent, or present but equal to the empty string), and whenever the next_token
is truthy (a non-empty cursor string) it continues the walk from that cursor —
performing at least one further upstream call — whatever the records of the
page were, including an empty page. -/
theorem C3_termination_by_cursor (tr : Transport PaginatedCycleResponse) (now : Int)
    (start endT : Option String) (page_size : Int) (fuel : Nat) (c c2 : WhoopClient)
    (t : Option String) (page : PaginatedCycleResponse) (calls1 : List NetCall)
    (hfetch : get_cycle_collection c tr now page_size start endT t = (.ok page, c2, calls1)) :
    (truthy page.next_token = false →
      iterateCyclesLoop tr now start endT page_size (fuel + 1) c t =
        { yielded := page.records, calls := calls1, err := none, completed := true }) ∧
    (truthy page.next_token = true →
      iterateCyclesLoop tr now start endT page_size (fuel + 2) c t =
        { yielded := page.records ++
            (iterateCyclesLoop tr now start endT page_size (fuel + 1) c2 page.next_token).yielded
          calls := calls1 ++
            (iterateCyclesLoop tr now start endT page_size (fuel + 1) c2 page.next_token).calls
          err := (iterateCyclesLoop tr now start endT page_size (fuel + 1) c2 page.next_token).err
          completed :=
            (iterateCyclesLoop tr now start endT page_size (fuel + 1) c2 page.next_token).completed } ∧
      (iterateCyclesLoop tr now start endT page_size (fuel + 1) c2 page.next_token).calls ≠ []) := by
  constructor
  · intro hf
    simp only [iterateCyclesLoop]
    rw [hfetch]
    simp [hf]
  · intro ht
    have hacc2 : truthy c2.auth.access_token = true :=
      request_ok_access PaginatedCycleResponse c tr now "GET" "/v2/cycle"
        (collectionParams page_size start endT t) page c2 calls1 hfetch
    refine ⟨?_, loop_calls_ne_nil tr now start endT page_size fuel c2 page.next_token hacc2⟩
    show iterateCyclesLoop tr now start endT page_size ((fuel + 1) + 1) c t = _
    simp only [iterateCyclesLoop]
    rw [hfetch]
    simp [ht]

/-- Witness for C3 amended: a final page without cursor stops the walk after
its single fetch, and an empty page with the non-empty cursor "more" makes the
walk perform a further upstream call. -/
theorem C3_termination_by_cursor_witness :
    (get_cycle_collection cFresh onePageServer 0 25 none none none =
        (.ok pageOne, cFresh, callsOneFetch) ∧
      truthy pageOne.next_token = false ∧
      iterateCyclesLoop onePageServer 0 none none 25 1 cFresh none =
        { yielded := [cycA], calls := callsOneFetch, err := none, completed := true }) ∧
    (get_cycle_collection cFresh moreCursorServer 0 25 none none none =
        (.ok pageMore, cFresh, callsOneFetch) ∧
      truthy pageMore.next_token = true ∧
      (iterateCyclesLoop moreCursorServer 0 none none 25 1 cFresh pageMore.next_token).calls
        ≠ []) :=
  ⟨⟨rfl, rfl,
    (C3_termination_by_cursor onePageServer 0 none none 25 0 cFresh cFresh none
      pageOne callsOneFetch rfl).1 rfl⟩,
   ⟨rfl, rfl,
    ((C3_termination_by_cursor moreCursorServer 0 none none 25 0 cFresh cFresh none
      pageMore callsOneFetch rfl).2 rfl).2⟩⟩

/-- C2: against the server answering page1 with records [A, B] and cursor t2
and then page2 with records [C] and no cursor, the walk yields exactly
[A, B, C] in order and performs exactly two upstream collection calls, the
first without a nextToken parameter and the second with nextToken=t2. -/
theorem C2_two_page_walk (A B C : Cycle) :
    iterate_cycles 2 cFresh (twoPageServer A B C) 0 none none 25 =
      { yielded := [A, B, C]
        calls := [.resourceCall "GET" "https://api.prod.whoop.com/developer/v2/cycle"
            [("limit", "25")],
          .resourceCall "GET" "https://api.prod.whoop.com/developer/v2/cycle"
            [("limit", "25"), ("nextToken", "t2")]]
        err := none
        completed := true } := rfl

/-- C1: through the request gateway, (1) when the token is expired and a
refresh token is on record, exactly one refresh call is made and it is the
first network call, hence it precedes any resource call; (2) whenever no
access token is on record after the refresh step — never authenticated, or the
refresh attempt left none — the request fails with the no-access-token
ValueError (the AuthError of the spec taxonomy) and zero resource-endpoint
network calls occur. -/
theorem C1_gateway_refresh_short_circuit (b : Type) (c : WhoopClient)
    (tr : Transport b) (now : Int) (m ep : String) (p : List (String × String)) :
    (is_token_expired c.auth now = true ∧ truthy c.auth.refresh_token = true →
      (request c tr now m ep p).2.2.head? =
        some (NetCall.refreshCall (c.auth.refresh_token.getD "")) ∧
      ((request c tr now m ep p).2.2.filter isRefreshCall).length = 1) ∧
    ((authAfterRefreshStep c tr now).access_token = none →
      (request c tr now m ep p).1 =
        .error (.valueError "No access token available. Please authenticate first.") ∧
      (request c tr now m ep p).2.2.filter isResourceCall = []) := by
  cases hcond : (is_token_expired c.auth now && truthy c.auth.refresh_token) with
  | false =>
    constructor
    · rintro ⟨h1, h2⟩
      rw [h1, h2] at hcond
      simp at hcond
    · intro hnone
      have hauth : authAfterRefreshStep c tr now = c.auth := by
        unfold authAfterRefreshStep
        rw [hcond]
        simp
      rw [hauth] at hnone
      have hacc : truthy c.auth.access_token = false := by
        rw [hnone]
        rfl
      unfold request requestAfterRefresh
      rw [hcond, hacc]
      simp
  | true =>
    cases hres : tr.tokenEndpoint with
    | failure s bd =>
      constructor
      · intro _
        unfold request
        rw [hcond]
        simp [hres, refresh_access_token, isRefreshCall]
      · intro hnone
        exfalso
        have hauth : authAfterRefreshStep c tr now = c.auth := by
          unfold authAfterRefreshStep
          rw [hcond]
          simp [hres, refresh_access_token]
        rw [hauth] at hnone
        exact access_token_ne_none_of_truthy_refresh c.auth
          (Bool.and_elim_right hcond) hnone
    | success td =>
      constructor
      · intro _
        unfold request
        rw [hcond]
        simp only [if_true, hres, refresh_access_token]
        cases hacc : truthy (store_token c.auth td now).access_token with
        | true =>
          unfold requestAfterRefresh
          rw [hacc]
          cases tr.resource m
              ({ c with auth := store_token c.auth td now }.base_url ++ ep) p <;>
            simp [isRefreshCall, isResourceCall]
        | false =>
          unfold requestAfterRefresh
          rw [hacc]
          simp [isRefreshCall]
      · intro hnone
        exfalso
        have hauth : (authAfterRefreshStep c tr now).access_token
            = some td.access_token := by
          unfold authAfterRefreshStep
          rw [hcond]
          simp [hres, refresh_access_token, store_token, OAuth2Handler.access_token]
        rw [hauth] at hnone
        exact Option.noConfusion hnone

/-- Witness for C1: an expired client with a refresh token on record performs
the refresh first and exactly once; a never-authenticated client fails with
the no-access-token ValueError and performs no network call at all. -/
theorem C1_gateway_refresh_short_circuit_witness :
    (is_token_expired cExp.auth 0 = true ∧ truthy cExp.auth.refresh_token = true ∧
      (request cExp onePageServer 0 "GET" "/v2/cycle" []).2.2.head? =
        some (NetCall.refreshCall "rtk") ∧
      ((request cExp onePageServer 0 "GET" "/v2/cycle" []).2.2.filter isRefreshCall).length
        = 1) ∧
    ((authAfterRefreshStep cNever onePageServer 0).access_token = none ∧
      (request cNever onePageServer 0 "GET" "/v2/cycle" []).1 =
        .error (.valueError "No access token available. Please authenticate first.") ∧
      (request cNever onePageServer 0 "GET" "/v2/cycle" []).2.2.filter isResourceCall
        = []) :=
  ⟨⟨rfl, rfl,
    ((C1_gateway_refresh_short_circuit PaginatedCycleResponse cExp onePageServer 0
      "GET" "/v2/cycle" []).1 ⟨rfl, rfl⟩).1,
    ((C1_gateway_refresh_short_circuit PaginatedCycleResponse cExp onePageServer 0
      "GET" "/v2/cycle" []).1 ⟨rfl, rfl⟩).2⟩,
   ⟨rfl,
    ((C1_gateway_refresh_short_circuit PaginatedCycleResponse cNever onePageServer 0
      "GET" "/v2/cycle" []).2 rfl).1,
    ((C1_gateway_refresh_short_circuit PaginatedCycleResponse cNever onePageServer 0
      "GET" "/v2/cycle" []).2 rfl).2⟩⟩

end Whoop
